import Mathlib

/-!
Shallow embedding of the warehouse-management front end (avaraa-fe).

The embedded fragments are:
* the natural (numeric-aware) string comparator used by the putaway
  auto-placement (`localeCompare(b, undefined, { numeric: true })` on
  ASCII rack/bin codes), together with the stable sort applied to racks
  and bins (`Inbound.tsx`, `openPutawayModal`);
* the Placement Resolver loop of `openPutawayModal`: scan sorted racks,
  fetch each rack's bins, sort them, pick the first non-occupied bin,
  skip racks whose bin fetch fails, warn when nothing is free;
* the local-data pagination hook `usePagination` of
  `pagination-controls` (lastPage, slice, from/to and the
  reset-to-page-1 self correction);
* the per-screen list-state transitions: the fetch success/failure
  paths of `Inbound.fetchOrders`, `Reports.fetchData`,
  `ItemMaster.fetchItems`, `Dispatch.fetchOrders`, `PickPack.fetchOrders`,
  the per-page change handlers, the 400 ms search debounce and the
  `toggleSort` three-state cycle of `Reports.tsx`.
-/

namespace AvaraaFe

/-! ## Natural (numeric-aware) comparator

Model of `a.localeCompare(b, undefined, { numeric: true })` restricted to
the ASCII alphanumeric codes used for racks and bins ("A", "B1", "A10"):
a string is tokenized into maximal digit runs (compared as numbers) and
single non-digit characters (compared by code point); a digit run orders
before a non-digit character, and a shorter token list orders first. -/

inductive NToken where
  | num (n : Nat)
  | ch (c : Char)
deriving DecidableEq, Repr

def isDigitChar (c : Char) : Bool := '0' ≤ c && c ≤ '9'

/-- Tokenize a character list; `acc` carries the value of the digit run
currently being read. -/
def tokenizeChars : List Char → Option Nat → List NToken
  | [], none => []
  | [], some n => [NToken.num n]
  | c :: rest, acc =>
    if isDigitChar c then
      tokenizeChars rest (some (acc.getD 0 * 10 + (c.toNat - 48)))
    else
      match acc with
      | some n => NToken.num n :: NToken.ch c :: tokenizeChars rest none
      | none => NToken.ch c :: tokenizeChars rest none

def naturalTokens (s : String) : List NToken := tokenizeChars s.data none

def cmpNToken : NToken → NToken → Ordering
  | NToken.num m, NToken.num n => compare m n
  | NToken.num _, NToken.ch _ => Ordering.lt
  | NToken.ch _, NToken.num _ => Ordering.gt
  | NToken.ch a, NToken.ch b => compare a.toNat b.toNat

def cmpNTokens : List NToken → List NToken → Ordering
  | [], [] => Ordering.eq
  | [], _ :: _ => Ordering.lt
  | _ :: _, [] => Ordering.gt
  | x :: xs, y :: ys =>
    match cmpNToken x y with
    | Ordering.eq => cmpNTokens xs ys
    | o => o

def naturalCompare (a b : String) : Ordering :=
  cmpNTokens (naturalTokens a) (naturalTokens b)

/-! ## Stable sort by a boolean `le`, as JS `Array.prototype.sort` -/

/-- Insert `x` after every already-placed element that is `le x`
(equal keys keep their original relative order, as the ECMAScript sort
is stable). -/
def insertLe (le : α → α → Bool) (x : α) : List α → List α
  | [] => [x]
  | y :: ys => if le y x then y :: insertLe le x ys else x :: y :: ys

def sortByLe (le : α → α → Bool) (l : List α) : List α :=
  l.foldr (insertLe le) []

/-! ## Racks, bins and the Placement Resolver (`openPutawayModal`) -/

structure ApiRack where
  id : Nat
  code : String
deriving DecidableEq, Repr

structure ApiBin where
  id : Nat
  code : String
  is_occupied : Option Bool
deriving DecidableEq, Repr

/-- `(a, b) => a.code.localeCompare(b.code, undefined, { numeric: true })`
as a boolean "not greater". -/
def rackLe (a b : ApiRack) : Bool := naturalCompare a.code b.code ≠ Ordering.gt

def binLe (a b : ApiBin) : Bool := naturalCompare a.code b.code ≠ Ordering.gt

def sortRacksByCode (l : List ApiRack) : List ApiRack := sortByLe rackLe l

def sortBinsByCode (l : List ApiBin) : List ApiBin := sortByLe binLe l

/-- `b => !(b.is_occupied ?? false)`: an absent field defaults to `false`. -/
def binAvailable (b : ApiBin) : Bool := !(b.is_occupied.getD false)

/-- The state `openPutawayModal` leaves behind: the auto-selected rack and
bin, the bin list shown, and whether the "No available bins found. Please
select manually." warning was raised. -/
structure PutawayOutcome where
  selectedRackId : Option Nat
  selectedBinId : Option Nat
  bins : List ApiBin
  manualWarning : Bool
deriving DecidableEq, Repr

/-- The rack loop of `openPutawayModal`: for each rack (in the given
order) fetch its bins (`fetchBins rack.id`; an `Except.error` models a
thrown fetch), sort them, and return on the first available bin;
a failed fetch or a rack with no free bin falls through to the next
rack; an exhausted list raises the manual-selection warning. -/
def putawayScan (fetchBins : Nat → Except Unit (List ApiBin)) :
    List ApiRack → PutawayOutcome
  | [] => ⟨none, none, [], true⟩
  | rack :: rest =>
    match fetchBins rack.id with
    | Except.error _ => putawayScan fetchBins rest
    | Except.ok fetched =>
      let sorted := sortBinsByCode fetched
      match sorted.find? binAvailable with
      | some b => ⟨some rack.id, some b.id, sorted, false⟩
      | none => putawayScan fetchBins rest

/-- `openPutawayModal`, after the racks request succeeded: sort the racks
by code and run the scan. -/
def openPutaway (racks : List ApiRack)
    (fetchBins : Nat → Except Unit (List ApiBin)) : PutawayOutcome :=
  putawayScan fetchBins (sortRacksByCode racks)

/-! ## Pagination metadata and the local-data hook `usePagination` -/

/-- `PaginationMeta` of `pagination-controls`; the nullable source fields
`from` / `to` are rendered as `from_` / `to_`. -/
structure PaginationMeta where
  currentPage : Nat
  lastPage : Nat
  perPage : Nat
  total : Nat
  from_ : Option Nat
  to_ : Option Nat
deriving DecidableEq, Repr

structure PaginationView (α : Type) where
  paginatedItems : List α
  meta : PaginationMeta
deriving DecidableEq, Repr

/-- The pure computation of the `usePagination` hook at a given
`currentPage` / `perPage` state: `lastPage = Math.ceil(total / perPage) || 1`
(on naturals, with `perPage ≥ 1`, the ceiling is
`(total + perPage - 1) / perPage`), `startIndex = (currentPage-1)*perPage`,
`paginatedItems = items.slice(startIndex, endIndex)`,
`from = total === 0 ? null : startIndex + 1`,
`to = total === 0 ? null : Math.min(endIndex, total)`. -/
def usePagination {α : Type} (items : List α) (currentPage perPage : Nat) :
    PaginationView α :=
  let total := items.length
  let ceilPages := (total + perPage - 1) / perPage
  let lastPage := if ceilPages = 0 then 1 else ceilPages
  let startIndex := (currentPage - 1) * perPage
  let endIndex := startIndex + perPage
  let paginatedItems := (items.drop startIndex).take (endIndex - startIndex)
  let from_ := if total = 0 then none else some (startIndex + 1)
  let to_ := if total = 0 then none else some (min endIndex total)
  ⟨paginatedItems, ⟨currentPage, lastPage, perPage, total, from_, to_⟩⟩

/-- The self-correction effect of `usePagination`:
`if (currentPage > lastPage) setCurrentPage(1)`. -/
def correctedPage (currentPage lastPage : Nat) : Nat :=
  if lastPage < currentPage then 1 else currentPage

/-! ## List-screen fetch transitions (success / failure) -/

structure ApiInboundOrder where
  id : Nat
  status : String
deriving DecidableEq, Repr

/-- One successful list response as applied by `Inbound.fetchOrders`:
the item list plus the parsed pagination envelope. -/
structure InboundPayload where
  list : List ApiInboundOrder
  meta : PaginationMeta
deriving DecidableEq, Repr

/-- The screen state touched by `Inbound.fetchOrders`: `orders`,
`paginationMeta`, `selectedOrder`, `isLoading`, and the last toast
message raised (if any). -/
structure InboundListState where
  orders : List ApiInboundOrder
  paginationMeta : PaginationMeta
  selectedOrder : Option ApiInboundOrder
  isLoading : Bool
  lastToast : Option String
deriving DecidableEq, Repr

/-- Success continuation of `Inbound.fetchOrders`: `setOrders(list)`,
`setPaginationMeta(...)`, refresh `selectedOrder` when it is still in the
list (keep it unchanged otherwise), then `finally setIsLoading(false)`. -/
def inboundApplySuccess (s : InboundListState) (p : InboundPayload) :
    InboundListState :=
  { s with
    orders := p.list
    paginationMeta := p.meta
    selectedOrder :=
      match s.selectedOrder with
      | some o =>
        match p.list.find? (fun o2 => o2.id = o.id) with
        | some fresh => some fresh
        | none => some o
      | none => none
    isLoading := false }

/-- Failure continuation of `Inbound.fetchOrders`:
`catch { toast.error('Failed to load inbound orders'); }` then
`finally setIsLoading(false)`; `orders` and `paginationMeta` are not
touched. -/
def inboundApplyFailure (s : InboundListState) : InboundListState :=
  { s with lastToast := some "Failed to load inbound orders", isLoading := false }

/-- Events observable at the `Inbound.fetchOrders` await boundary:
issuing a fetch (`setIsLoading(true)`), a response arriving, or a fetch
failing. The code carries no sequence number, so an arriving response is
applied unconditionally. -/
inductive InboundEvent where
  | issue
  | respond (p : InboundPayload)
  | fail
deriving DecidableEq, Repr

def inboundStep (s : InboundListState) : InboundEvent → InboundListState
  | InboundEvent.issue => { s with isLoading := true }
  | InboundEvent.respond p => inboundApplySuccess s p
  | InboundEvent.fail => inboundApplyFailure s

def runInbound (s : InboundListState) (es : List InboundEvent) : InboundListState :=
  es.foldl inboundStep s

/-- The screen state touched by `Reports.fetchData`: `rows`, `meta`,
`isLoading`, last toast. Rows are abstracted to their ids. -/
structure ReportsState where
  rows : List Nat
  meta : PaginationMeta
  isLoading : Bool
  lastToast : Option String
deriving DecidableEq, Repr

/-- Failure continuation of `Reports.fetchData`:
`catch { toast.error('Failed to load report'); setRows([]); }` then
`finally setIsLoading(false)` — unlike the other screens it clears the
row collection. -/
def reportsApplyFailure (s : ReportsState) : ReportsState :=
  { s with lastToast := some "Failed to load report", rows := [], isLoading := false }

/-- Shared shape of the `ItemMaster`, `Dispatch` and `PickPack` list
state touched by their fetch functions. Items are abstracted to ids. -/
structure ServerListState where
  items : List Nat
  paginationMeta : PaginationMeta
  isLoading : Bool
  lastToast : Option String
deriving DecidableEq, Repr

/-- Failure continuation of `ItemMaster.fetchItems`:
`catch { toast.error('Failed to load items'); }` then
`finally setIsLoading(false)`. -/
def itemMasterApplyFailure (s : ServerListState) : ServerListState :=
  { s with lastToast := some "Failed to load items", isLoading := false }

/-- Failure continuation of `Dispatch.fetchOrders`:
`catch { toast.error('Failed to load dispatch orders'); }` then
`finally setIsLoading(false)`. -/
def dispatchApplyFailure (s : ServerListState) : ServerListState :=
  { s with lastToast := some "Failed to load dispatch orders", isLoading := false }

/-- Failure continuation of `PickPack.fetchOrders`: identical catch and
finally blocks to `Dispatch.fetchOrders`. -/
def pickPackApplyFailure (s : ServerListState) : ServerListState :=
  { s with lastToast := some "Failed to load dispatch orders", isLoading := false }

/-! ## Per-page change handlers -/

/-- The page / page-size slice of a screen's request state. -/
structure PageSizeState where
  currentPage : Nat
  perPage : Nat
deriving DecidableEq, Repr

/-- `Inbound`: `onPerPageChange={(pp) => { setPerPage(pp); setCurrentPage(1); }}`. -/
def inboundOnPerPageChange (_s : PageSizeState) (pp : Nat) : PageSizeState :=
  ⟨1, pp⟩

/-- `Reports`: `onPerPageChange={(pp) => { setPerPage(pp); setCurrentPage(1); }}`. -/
def reportsOnPerPageChange (_s : PageSizeState) (pp : Nat) : PageSizeState :=
  ⟨1, pp⟩

/-- `ItemMaster`: `onPerPageChange={(pp) => { setPerPage(pp); setCurrentPage(1); }}`. -/
def itemMasterOnPerPageChange (_s : PageSizeState) (pp : Nat) : PageSizeState :=
  ⟨1, pp⟩

/-- `PickPack`: `onPerPageChange={(pp) => { setPerPage(pp); setCurrentPage(1); }}`. -/
def pickPackOnPerPageChange (_s : PageSizeState) (pp : Nat) : PageSizeState :=
  ⟨1, pp⟩

/-- `Dispatch`: `onPerPageChange={setPerPage}` — only the page size is
set; the current page is left as it was. -/
def dispatchOnPerPageChange (s : PageSizeState) (pp : Nat) : PageSizeState :=
  { s with perPage := pp }

/-! ## Search debounce (400 ms) -/

/-- A `setSearchText` call: (timestamp in ms, text). The debounce effect
`setTimeout(..., 400)` with `clearTimeout` cleanup commits a call's text
iff no further call occurs within 400 ms of it; `debounceCommits`
returns the committed texts in order. -/
def debounceCommits : List (Nat × String) → List String
  | [] => []
  | [(_, s)] => [s]
  | (t, s) :: (t2, s2) :: rest =>
    (if t2 < t + 400 then [] else [s]) ++ debounceCommits ((t2, s2) :: rest)

/-- All gaps between consecutive calls are shorter than the 400 ms
debounce interval. -/
def gapsWithinDebounce : List (Nat × String) → Bool
  | (t, _) :: (t2, s2) :: rest =>
    decide (t2 < t + 400) && gapsWithinDebounce ((t2, s2) :: rest)
  | _ => true

def lastCallText : List (Nat × String) → String
  | [] => ""
  | [(_, s)] => s
  | _ :: c :: rest => lastCallText (c :: rest)

structure SearchCommitState where
  debouncedSearch : String
  currentPage : Nat
deriving DecidableEq, Repr

/-- Firing of the debounce timer: `setDebouncedSearch(searchTerm);
setCurrentPage(1);`. -/
def applySearchCommit (_s : SearchCommitState) (text : String) : SearchCommitState :=
  ⟨text, 1⟩

/-- The requests the commits trigger (each resync is issued with the
committed search text and the reset page number 1). -/
def committedRequests (calls : List (Nat × String)) : List (String × Nat) :=
  (debounceCommits calls).map (fun s => (s, 1))

/-! ## Sort toggle (`Reports.toggleSort`) -/

inductive SortDirection where
  | asc
  | desc
deriving DecidableEq, Repr

structure SortSpec where
  column : String
  direction : SortDirection
deriving DecidableEq, Repr

/-- `setSort(prev => ...)` of `Reports.toggleSort`: same column cycles
asc → desc → null; a different (or no) previous column starts at asc. -/
def toggleSortState (prev : Option SortSpec) (column : String) : Option SortSpec :=
  match prev with
  | some p =>
    if p.column = column then
      match p.direction with
      | SortDirection.asc => some ⟨column, SortDirection.desc⟩
      | SortDirection.desc => none
    else some ⟨column, SortDirection.asc⟩
  | none => some ⟨column, SortDirection.asc⟩

/-- `toggleSort` acts on the (sort, currentPage) pair: it updates the
sort state and always runs `setCurrentPage(1)`. -/
def reportsToggleSort (s : Option SortSpec × Nat) (column : String) :
    Option SortSpec × Nat :=
  (toggleSortState s.1 column, 1)

/-- A rack yields no free bin during the putaway scan: its bin fetch
throws, or none of its (sorted) bins is available. -/
def rackHasNoFreeBin (f : Nat → Except Unit (List ApiBin)) (r : ApiRack) : Bool :=
  match f r.id with
  | Except.error _ => true
  | Except.ok bins => ((sortBinsByCode bins).find? binAvailable).isNone

/-! ## Helper lemmas -/

theorem putawayScan_cons (f : Nat → Except Unit (List ApiBin)) (rack : ApiRack)
    (rest : List ApiRack) :
    putawayScan f (rack :: rest) =
      match f rack.id with
      | Except.error _ => putawayScan f rest
      | Except.ok fetched =>
        match (sortBinsByCode fetched).find? binAvailable with
        | some b => ⟨some rack.id, some b.id, sortBinsByCode fetched, false⟩
        | none => putawayScan f rest := rfl

theorem mem_insertLe (le : α → α → Bool) (x a : α) :
    ∀ l : List α, a ∈ insertLe le x l ↔ a = x ∨ a ∈ l
  | [] => by simp [insertLe]
  | y :: ys => by
    by_cases h : le y x = true
    · simp only [insertLe, if_pos h, List.mem_cons, mem_insertLe le x a ys]
      tauto
    · simp only [insertLe, if_neg h, List.mem_cons]

theorem mem_sortByLe (le : α → α → Bool) (a : α) :
    ∀ l : List α, a ∈ sortByLe le l ↔ a ∈ l
  | [] => Iff.rfl
  | x :: xs => by
    show a ∈ insertLe le x (sortByLe le xs) ↔ _
    rw [mem_insertLe, mem_sortByLe le a xs, List.mem_cons]

theorem putawayScan_of_no_free (f : Nat → Except Unit (List ApiBin)) :
    ∀ l : List ApiRack, (∀ r ∈ l, rackHasNoFreeBin f r = true) →
      putawayScan f l = ⟨none, none, [], true⟩
  | [], _ => rfl
  | rack :: rest, h => by
    have hr := h rack (List.mem_cons_self rack rest)
    have htail : ∀ r ∈ rest, rackHasNoFreeBin f r = true :=
      fun r hm => h r (List.mem_cons_of_mem rack hm)
    rw [putawayScan_cons]
    unfold rackHasNoFreeBin at hr
    cases hfetch : f rack.id with
    | error e => exact putawayScan_of_no_free f rest htail
    | ok bins =>
      rw [hfetch] at hr
      simp only [Option.isNone_iff_eq_none] at hr
      simp only [hr]
      exact putawayScan_of_no_free f rest htail

theorem find?_congr_pred (p q : α → Bool) (h : ∀ a, p a = q a) :
    ∀ l : List α, l.find? p = l.find? q
  | [] => rfl
  | a :: l => by
    rw [List.find?_cons, List.find?_cons, h a]
    cases q a <;> simp [find?_congr_pred p q h l]

/-! ## Claim theorems -/

/-- Claim C1: the Placement Resolver sorts racks by code with the
natural comparator ascending, sorts each rack's bins with the same
comparator, and returns the first non-occupied bin of the first rack in
sorted order that has one — without scanning the remaining racks (the
fetcher `g` is constrained only at the head rack); in particular bin
codes ["A2", "A10", "A1"] are evaluated in the order A1, A2, A10, and a
warehouse with racks A (A1 occupied, A2 free) and B (B1 free) yields
rack A / bin A2. -/
theorem c1_placement_resolver :
    (∀ (racks : List ApiRack) (g : Nat → Except Unit (List ApiBin))
        (r : ApiRack) (rest : List ApiRack) (bins : List ApiBin) (b : ApiBin),
        sortRacksByCode racks = r :: rest →
        g r.id = Except.ok bins →
        (sortBinsByCode bins).find? binAvailable = some b →
        openPutaway racks g = ⟨some r.id, some b.id, sortBinsByCode bins, false⟩) ∧
    ((sortBinsByCode
        [⟨21, "A2", some false⟩, ⟨22, "A10", some false⟩, ⟨23, "A1", some false⟩]).map
          ApiBin.code = ["A1", "A2", "A10"]) ∧
    (openPutaway [⟨2, "B"⟩, ⟨1, "A"⟩]
        (fun i => if i = 1
          then Except.ok [⟨5, "A1", some true⟩, ⟨6, "A2", some false⟩]
          else Except.ok [⟨7, "B1", some false⟩])
      = ⟨some 1, some 6, [⟨5, "A1", some true⟩, ⟨6, "A2", some false⟩], false⟩) := by
  refine ⟨?_, by decide, by decide⟩
  intro racks g r rest bins b hsort hok hfind
  unfold openPutaway
  rw [hsort, putawayScan_cons, hok]
  simp only [hfind]

/-- Witness for C1: the general short-circuit statement applied to a
concrete two-rack warehouse given in unsorted order, with a fetcher that
fails on every rack other than the head of the sorted order. -/
theorem c1_placement_resolver_witness :
    openPutaway [⟨4, "R2"⟩, ⟨3, "R1"⟩]
        (fun i => if i = 3 then Except.ok [⟨9, "B1", some false⟩] else Except.error ())
      = ⟨some 3, some 9, sortBinsByCode [⟨9, "B1", some false⟩], false⟩ :=
  c1_placement_resolver.1 [⟨4, "R2"⟩, ⟨3, "R1"⟩]
    (fun i => if i = 3 then Except.ok [⟨9, "B1", some false⟩] else Except.error ())
    ⟨3, "R1"⟩ [⟨4, "R2"⟩] [⟨9, "B1", some false⟩] ⟨9, "B1", some false⟩
    (by decide) rfl (by decide)

/-- Claim C8: a rack whose bin fetch fails is skipped and the scan
continues with the remaining racks (it can still succeed on a later
rack); when no rack yields a free bin the resolver selects nothing and
raises the manual-selection warning. -/
theorem c8_skip_on_failure :
    (∀ (f : Nat → Except Unit (List ApiBin)) (rack : ApiRack) (rest : List ApiRack),
        f rack.id = Except.error () →
        putawayScan f (rack :: rest) = putawayScan f rest) ∧
    (∀ (racks : List ApiRack) (f : Nat → Except Unit (List ApiBin)),
        (∀ r ∈ racks, rackHasNoFreeBin f r = true) →
        openPutaway racks f = ⟨none, none, [], true⟩) ∧
    (openPutaway [⟨1, "A"⟩, ⟨2, "B"⟩]
        (fun i => if i = 1 then Except.error ()
                  else Except.ok [⟨10, "B1", some false⟩])
      = ⟨some 2, some 10, [⟨10, "B1", some false⟩], false⟩) := by
  refine ⟨?_, ?_, by decide⟩
  · intro f rack rest hfail
    rw [putawayScan_cons, hfail]
  · intro racks f h
    unfold openPutaway
    exact putawayScan_of_no_free f (sortRacksByCode racks)
      (fun r hm => h r ((mem_sortByLe rackLe r racks).mp hm))

/-- Witness for C8: the skip rule applied to a concrete failing rack,
and the all-exhausted rule applied to a concrete warehouse where the
only rack's fetch fails. -/
theorem c8_skip_on_failure_witness :
    putawayScan (fun _ => Except.error ()) [⟨1, "A"⟩, ⟨2, "B"⟩]
        = putawayScan (fun _ => Except.error ()) [⟨2, "B"⟩] ∧
    openPutaway [⟨1, "Z"⟩] (fun _ => Except.error ()) = ⟨none, none, [], true⟩ :=
  ⟨c8_skip_on_failure.1 (fun _ => Except.error ()) ⟨1, "A"⟩ [⟨2, "B"⟩] rfl,
   c8_skip_on_failure.2.1 [⟨1, "Z"⟩] (fun _ => Except.error ())
     (by intro r _; rfl)⟩

/-- Claim C9: a bin with an absent occupancy field is treated as free —
`binAvailable` holds exactly when `is_occupied` is not strictly `true`,
the scan over a rack's sorted bins picks the first bin satisfying that
predicate, and a concrete rack whose only free-looking bin merely lacks
the field gets it auto-assigned. -/
theorem c9_missing_occupancy_is_free :
    (∀ b : ApiBin, binAvailable b = decide (b.is_occupied ≠ some true)) ∧
    (∀ bins : List ApiBin,
        (sortBinsByCode bins).find? binAvailable
          = (sortBinsByCode bins).find? (fun b => decide (b.is_occupied ≠ some true))) ∧
    (openPutaway [⟨1, "A"⟩]
        (fun _ => Except.ok [⟨5, "A1", some true⟩, ⟨6, "A2", none⟩])
      = ⟨some 1, some 6, [⟨5, "A1", some true⟩, ⟨6, "A2", none⟩], false⟩) := by
  have hpt : ∀ b : ApiBin, binAvailable b = decide (b.is_occupied ≠ some true) := by
    intro b
    rcases b with ⟨i, c, occ⟩
    rcases occ with _ | bv
    · rfl
    · cases bv <;> rfl
  exact ⟨hpt,
    fun bins => find?_congr_pred binAvailable _ hpt (sortBinsByCode bins),
    by decide⟩

/-- Counterexample to claim C3: requests R1 and R2 are issued in that
order, R2's response arrives first and R1's stale response arrives
last — the code applies it anyway, so the final orders are R1's, not
R2's. -/
theorem c3_stale_response_counterexample :
    (runInbound ⟨[], ⟨1, 1, 10, 0, none, none⟩, none, false, none⟩
        [InboundEvent.issue, InboundEvent.issue,
         InboundEvent.respond ⟨[⟨2, "pending"⟩], ⟨2, 3, 10, 25, some 11, some 20⟩⟩,
         InboundEvent.respond ⟨[⟨1, "pending"⟩], ⟨1, 3, 10, 25, some 1, some 10⟩⟩]).orders
      = [⟨1, "pending"⟩] ∧
    ([⟨1, "pending"⟩] : List ApiInboundOrder) ≠ [⟨2, "pending"⟩] := by
  constructor
  · rfl
  · decide

/-- Claim C3 as amended: the fetch carries no sequence number, so every
arriving response is applied unconditionally; the visible state reflects
whichever response arrived last — when R2's response arrives before
R1's, the final state reflects R1. -/
theorem c3_last_arrival_wins :
    ∀ (s : InboundListState) (p1 p2 : InboundPayload),
      (runInbound s [InboundEvent.issue, InboundEvent.issue,
          InboundEvent.respond p2, InboundEvent.respond p1]).orders = p1.list ∧
      (runInbound s [InboundEvent.issue, InboundEvent.issue,
          InboundEvent.respond p2, InboundEvent.respond p1]).paginationMeta = p1.meta ∧
      (runInbound s [InboundEvent.issue, InboundEvent.issue,
          InboundEvent.respond p2, InboundEvent.respond p1]).isLoading = false :=
  fun _ _ _ => ⟨rfl, rfl, rfl⟩

/-- Counterexample to claim C4: on the Reports screen a failed fetch
does not leave the displayed rows untouched — it blanks the collection. -/
theorem c4_reports_blanks_rows_counterexample :
    (reportsApplyFailure ⟨[7], ⟨1, 1, 25, 1, some 1, some 1⟩, true, none⟩).rows = [] ∧
    (reportsApplyFailure ⟨[7], ⟨1, 1, 25, 1, some 1, some 1⟩, true, none⟩).rows ≠ [7] := by
  decide

/-- Claim C4 as amended: every list screen converts a failed fetch into
a toast notification and clears the loading flag; the Inbound,
ItemMaster, Dispatch and PickPack screens leave their items and
pagination metadata unchanged, while the Reports screen clears its rows
to the empty list (its pagination metadata stays unchanged). -/
theorem c4_fetch_failure_semantics :
    ∀ (s : InboundListState) (t : ServerListState) (r : ReportsState),
      ((inboundApplyFailure s).orders = s.orders ∧
       (inboundApplyFailure s).paginationMeta = s.paginationMeta ∧
       (inboundApplyFailure s).isLoading = false ∧
       (inboundApplyFailure s).lastToast = some "Failed to load inbound orders") ∧
      ((itemMasterApplyFailure t).items = t.items ∧
       (itemMasterApplyFailure t).paginationMeta = t.paginationMeta ∧
       (itemMasterApplyFailure t).isLoading = false ∧
       (itemMasterApplyFailure t).lastToast = some "Failed to load items") ∧
      ((dispatchApplyFailure t).items = t.items ∧
       (dispatchApplyFailure t).paginationMeta = t.paginationMeta ∧
       (dispatchApplyFailure t).isLoading = false ∧
       (dispatchApplyFailure t).lastToast = some "Failed to load dispatch orders") ∧
      ((pickPackApplyFailure t).items = t.items ∧
       (pickPackApplyFailure t).paginationMeta = t.paginationMeta ∧
       (pickPackApplyFailure t).isLoading = false ∧
       (pickPackApplyFailure t).lastToast = some "Failed to load dispatch orders") ∧
      ((reportsApplyFailure r).rows = [] ∧
       (reportsApplyFailure r).meta = r.meta ∧
       (reportsApplyFailure r).isLoading = false ∧
       (reportsApplyFailure r).lastToast = some "Failed to load report") :=
  fun _ _ _ =>
    ⟨⟨rfl, rfl, rfl, rfl⟩, ⟨rfl, rfl, rfl, rfl⟩, ⟨rfl, rfl, rfl, rfl⟩,
     ⟨rfl, rfl, rfl, rfl⟩, ⟨rfl, rfl, rfl, rfl⟩⟩

/-- Counterexample to claim C5: on the Dispatch screen changing the page
size does not reset the page number — from page 3 it stays on page 3. -/
theorem c5_dispatch_no_page_reset_counterexample :
    (dispatchOnPerPageChange ⟨3, 10⟩ 25).currentPage = 3 ∧
    (dispatchOnPerPageChange ⟨3, 10⟩ 25).currentPage ≠ 1 ∧
    (dispatchOnPerPageChange ⟨3, 10⟩ 25).perPage = 25 := by
  decide

/-- Claim C5 as amended: on the Inbound, Reports, ItemMaster and
PickPack screens the page-size change handler sets the page size to `n`
and resets the page number to 1; on the Dispatch screen it only sets the
page size and leaves the page number unchanged. -/
theorem c5_set_page_size :
    ∀ (s : PageSizeState) (n : Nat),
      inboundOnPerPageChange s n = ⟨1, n⟩ ∧
      reportsOnPerPageChange s n = ⟨1, n⟩ ∧
      itemMasterOnPerPageChange s n = ⟨1, n⟩ ∧
      pickPackOnPerPageChange s n = ⟨1, n⟩ ∧
      dispatchOnPerPageChange s n = ⟨s.currentPage, n⟩ :=
  fun _ _ => ⟨rfl, rfl, rfl, rfl, rfl⟩

/-- Claim C7: `toggleSort` cycles a column unset → ascending →
descending → unset, a column different from the current one always
starts at ascending, and every call resets the page number to 1. -/
theorem c7_toggle_sort_cycle :
    (∀ c : String, toggleSortState none c = some ⟨c, SortDirection.asc⟩) ∧
    (∀ c : String,
        toggleSortState (some ⟨c, SortDirection.asc⟩) c = some ⟨c, SortDirection.desc⟩) ∧
    (∀ c : String, toggleSortState (some ⟨c, SortDirection.desc⟩) c = none) ∧
    (∀ (c c2 : String) (d : SortDirection), c2 ≠ c →
        toggleSortState (some ⟨c2, d⟩) c = some ⟨c, SortDirection.asc⟩) ∧
    (∀ (st : Option SortSpec × Nat) (c : String), (reportsToggleSort st c).2 = 1) := by
  refine ⟨fun c => rfl, fun c => by simp [toggleSortState],
    fun c => by simp [toggleSortState], ?_, fun st c => rfl⟩
  intro c c2 d h
  simp [toggleSortState, h]

/-- Witness for C7: selecting a new column while another column is
sorted descending starts the new column at ascending. -/
theorem c7_toggle_sort_cycle_witness :
    toggleSortState (some ⟨"sku", SortDirection.desc⟩) "quantity"
      = some ⟨"quantity", SortDirection.asc⟩ :=
  c7_toggle_sort_cycle.2.2.2.1 "quantity" "sku" SortDirection.desc (by decide)

theorem debounceCommits_allRapid :
    ∀ calls : List (Nat × String), calls ≠ [] → gapsWithinDebounce calls = true →
      debounceCommits calls = [lastCallText calls]
  | [], h, _ => absurd rfl h
  | [(_, _)], _, _ => rfl
  | (t, s) :: (t2, s2) :: rest, _, hgaps => by
    simp only [gapsWithinDebounce, Bool.and_eq_true, decide_eq_true_eq] at hgaps
    have ih := debounceCommits_allRapid ((t2, s2) :: rest) (List.cons_ne_nil _ _) hgaps.2
    show (if t2 < t + 400 then [] else [s]) ++ debounceCommits ((t2, s2) :: rest)
        = [lastCallText ((t, s) :: (t2, s2) :: rest)]
    rw [if_pos hgaps.1, List.nil_append, ih]
    rfl

/-- Claim C6: when every gap between consecutive `setSearchText` calls
is shorter than the 400 ms debounce interval, exactly one commit fires,
it carries the final text of the sequence, the one committed request has
page number 1, and the resulting search state is (final text, page 1). -/
theorem c6_search_debounce :
    ∀ calls : List (Nat × String), calls ≠ [] → gapsWithinDebounce calls = true →
      debounceCommits calls = [lastCallText calls] ∧
      committedRequests calls = [(lastCallText calls, 1)] ∧
      ∀ s0 : SearchCommitState,
        (debounceCommits calls).foldl applySearchCommit s0
          = ⟨lastCallText calls, 1⟩ := by
  intro calls h1 h2
  have hc := debounceCommits_allRapid calls h1 h2
  refine ⟨hc, ?_, fun s0 => ?_⟩
  · unfold committedRequests
    rw [hc]
    rfl
  · rw [hc]
    rfl

/-- Witness for C6: three keystrokes 150 ms apart commit once, with the
final text and page 1. -/
theorem c6_search_debounce_witness :
    debounceCommits [(0, "i"), (150, "in"), (300, "inb")] = ["inb"] ∧
    committedRequests [(0, "i"), (150, "in"), (300, "inb")] = [("inb", 1)] ∧
    (debounceCommits [(0, "i"), (150, "in"), (300, "inb")]).foldl applySearchCommit
        ⟨"", 5⟩ = ⟨"inb", 1⟩ := by
  have h := c6_search_debounce [(0, "i"), (150, "in"), (300, "inb")]
    (by decide) (by decide)
  exact ⟨h.1, h.2.1, h.2.2 ⟨"", 5⟩⟩

/-- Claim C2: the `usePagination` computation yields
`from = to = null` and `lastPage = 1` when the item count is 0, and
otherwise `from = (currentPage-1)*perPage + 1`,
`to = min(currentPage*perPage, total)`, with
`lastPage = max 1 (ceil(total / perPage))`; in particular total 23 with
page size 10 gives lastPage 3, and page 3 shows items 21 to 23. -/
theorem c2_pagination_compute :
    (∀ (α : Type) (items : List α) (pp cp : Nat), 1 ≤ pp → 1 ≤ cp →
        cp ≤ (usePagination items cp pp).meta.lastPage →
        (items.length = 0 →
            (usePagination items cp pp).meta.from_ = none ∧
            (usePagination items cp pp).meta.to_ = none ∧
            (usePagination items cp pp).meta.lastPage = 1) ∧
        (0 < items.length →
            (usePagination items cp pp).meta.from_ = some ((cp - 1) * pp + 1) ∧
            (usePagination items cp pp).meta.to_
              = some (min (cp * pp) items.length)) ∧
        (usePagination items cp pp).meta.lastPage
            = max 1 ((items.length + pp - 1) / pp)) ∧
    ((usePagination (List.range 23) 3 10).meta.lastPage = 3 ∧
     (usePagination (List.range 23) 3 10).meta.from_ = some 21 ∧
     (usePagination (List.range 23) 3 10).meta.to_ = some 23) := by
  refine ⟨?_, by decide, by decide, by decide⟩
  intro α items pp cp hpp hcp _
  obtain ⟨k, rfl⟩ : ∃ k, cp = k + 1 := ⟨cp - 1, by omega⟩
  simp only [usePagination]
  refine ⟨?_, ?_, ?_⟩
  · intro h0
    have hdiv : (pp - 1) / pp = 0 := Nat.div_eq_of_lt (by omega)
    simp [h0, hdiv]
  · intro hpos
    have hne : ¬ items.length = 0 := by omega
    have hmul : k * pp + pp = (k + 1) * pp := (Nat.succ_mul k pp).symm
    simp only [hne, if_false, Nat.add_sub_cancel, hmul, and_self, true_and]
  · generalize (items.length + pp - 1) / pp = q
    split <;> omega

/-- Witness for C2: the general statement instantiated at 23 items,
page size 10, page 3. -/
theorem c2_pagination_compute_witness :
    (usePagination (List.range 23) 3 10).meta.from_ = some ((3 - 1) * 10 + 1) ∧
    (usePagination (List.range 23) 3 10).meta.to_
      = some (min (3 * 10) (List.range 23).length) ∧
    (usePagination (List.range 23) 3 10).meta.lastPage
      = max 1 (((List.range 23).length + 10 - 1) / 10) := by
  have h := c2_pagination_compute.1 Nat (List.range 23) 10 3
    (by decide) (by decide) (by decide)
  exact ⟨(h.2.1 (by decide)).1, (h.2.1 (by decide)).2, h.2.2⟩

/-- Claim C10: the `usePagination` self-correction keeps
`1 ≤ currentPage ≤ lastPage`: whenever the current page exceeds the last
page it is reset to 1 (not clamped to `lastPage`), and with the
corrected page the displayed slice of a non-empty item list is never
empty. -/
theorem c10_page_reset_self_correction :
    (∀ (α : Type) (items : List α) (pp cp : Nat), 1 ≤ pp → 1 ≤ cp →
        (1 ≤ correctedPage cp (usePagination items cp pp).meta.lastPage ∧
         correctedPage cp (usePagination items cp pp).meta.lastPage
           ≤ (usePagination items cp pp).meta.lastPage) ∧
        ((usePagination items cp pp).meta.lastPage < cp →
           correctedPage cp (usePagination items cp pp).meta.lastPage = 1) ∧
        (0 < items.length →
           (usePagination items
               (correctedPage cp (usePagination items cp pp).meta.lastPage) pp).paginatedItems
             ≠ [])) ∧
    (correctedPage 5 3 = 1 ∧ correctedPage 5 3 ≠ 3) := by
  refine ⟨?_, by decide⟩
  intro α items pp cp hpp hcp
  have hlpdef : (usePagination items cp pp).meta.lastPage
      = if (items.length + pp - 1) / pp = 0 then 1
        else (items.length + pp - 1) / pp := rfl
  have hlp1 : 1 ≤ (usePagination items cp pp).meta.lastPage := by
    rw [hlpdef]
    split
    · exact le_refl 1
    · exact Nat.pos_of_ne_zero (by assumption)
  have hcor : correctedPage cp (usePagination items cp pp).meta.lastPage
      = if (usePagination items cp pp).meta.lastPage < cp then 1 else cp := rfl
  refine ⟨⟨?_, ?_⟩, ?_, ?_⟩
  · rw [hcor]; split <;> omega
  · rw [hcor]; split <;> omega
  · intro h; rw [hcor, if_pos h]
  · intro hpos
    have hc1 : 1 ≤ (items.length + pp - 1) / pp :=
      (Nat.one_le_div_iff (by omega)).mpr (by omega)
    have hlpc : (usePagination items cp pp).meta.lastPage
        = (items.length + pp - 1) / pp := by
      rw [hlpdef, if_neg (Nat.pos_iff_ne_zero.mp hc1)]
    have hple : correctedPage cp (usePagination items cp pp).meta.lastPage
        ≤ (usePagination items cp pp).meta.lastPage := by
      rw [hcor]; split <;> omega
    have hp1 : 1 ≤ correctedPage cp (usePagination items cp pp).meta.lastPage := by
      rw [hcor]; split <;> omega
    have hA : ((usePagination items cp pp).meta.lastPage - 1) * pp + pp
        = (usePagination items cp pp).meta.lastPage * pp := by
      obtain ⟨m, hm⟩ : ∃ m, (usePagination items cp pp).meta.lastPage = m + 1 :=
        ⟨(usePagination items cp pp).meta.lastPage - 1, by omega⟩
      rw [hm]
      simp [Nat.succ_mul]
    have hB : (usePagination items cp pp).meta.lastPage * pp ≤ items.length + pp - 1 := by
      rw [hlpc]
      exact Nat.div_mul_le_self _ _
    have hstart : (correctedPage cp (usePagination items cp pp).meta.lastPage - 1) * pp
        ≤ ((usePagination items cp pp).meta.lastPage - 1) * pp :=
      Nat.mul_le_mul_right pp (by omega)
    have hlen : (usePagination items
        (correctedPage cp (usePagination items cp pp).meta.lastPage) pp).paginatedItems.length
        = min ((correctedPage cp (usePagination items cp pp).meta.lastPage - 1) * pp + pp
              - (correctedPage cp (usePagination items cp pp).meta.lastPage - 1) * pp)
            (items.length
              - (correctedPage cp (usePagination items cp pp).meta.lastPage - 1) * pp) := by
      simp only [usePagination, List.length_take, List.length_drop]
    refine List.length_pos.mp ?_
    rw [hlen]
    omega

/-- Witness for C10: 5 items at page size 2 (last page 3) with current
page 9 — the corrected page is 1 and its displayed slice is non-empty. -/
theorem c10_page_reset_self_correction_witness :
    correctedPage 9 (usePagination (List.range 5) 9 2).meta.lastPage = 1 ∧
    (usePagination (List.range 5)
        (correctedPage 9 (usePagination (List.range 5) 9 2).meta.lastPage) 2).paginatedItems
      ≠ [] := by
  have h := c10_page_reset_self_correction.1 Nat (List.range 5) 2 9
    (by decide) (by decide)
  exact ⟨h.2.1 (by decide), h.2.2 (by decide)⟩

end AvaraaFe
